import Mathlib

/-!
Shallow embedding of `src/checks/collector.py` (the run orchestrator of the
dd-agent collector) and proofs about its orchestration logic.

Python values flowing through the collector are modelled by the inductive
`PyVal`; Python dictionaries are insertion-ordered association lists with
replace-on-set semantics; a Python exception propagating is an `Except.error`.
External collaborators (the individual checks, the emitters, the system clock)
are inputs to the embedded functions: each check invocation's outcome is an
`Except Exc PyVal` value supplied as input, exactly at the call sites the
source has.
-/

set_option autoImplicit false

/-- Python exceptions distinguished by the collector's control flow. -/
inductive Exc : Type where
  | typeError
  | keyError (k : String)
  | attributeError
  | indexError
  | exc (msg : String)
deriving DecidableEq, Repr

/-- A Python value, as far as the collector inspects values. -/
inductive PyVal : Type where
  | none
  | bool (b : Bool)
  | int (n : Int)
  | str (s : String)
  | list (xs : List PyVal)
  | dict (kvs : List (String × PyVal))

/-- A Python dict with string keys: insertion-ordered association list whose
`dictSet` replaces an existing binding in place. -/
abbrev Dict := List (String × PyVal)

/-- Lookup in a dict (first binding wins, as Python keys are unique). -/
def dictGet? (d : Dict) (k : String) : Option PyVal :=
  match d with
  | [] => Option.none
  | (k1, v) :: rest => if k1 = k then some v else dictGet? rest k

/-- `d[k] = v`: replace the existing binding for `k` in place, else append. -/
def dictSet (d : Dict) (k : String) (v : PyVal) : Dict :=
  match d with
  | [] => [(k, v)]
  | (k1, v1) :: rest => if k1 = k then (k, v) :: rest else (k1, v1) :: dictSet rest k v

/-- `k in d`. -/
def dictHasKey (d : Dict) (k : String) : Bool :=
  (dictGet? d k).isSome

/-- `del d[k]` (call sites in the source only delete keys known to be present). -/
def dictDel (d : Dict) (k : String) : Dict :=
  match d with
  | [] => []
  | (k1, v1) :: rest => if k1 = k then rest else (k1, v1) :: dictDel rest k

/-- `d[k]` on a plain `Dict`: raises `KeyError` when the key is absent. -/
def dictGetItemE (d : Dict) (k : String) : Except Exc PyVal :=
  match dictGet? d k with
  | some v => Except.ok v
  | Option.none => Except.error (Exc.keyError k)

/-- Number of bindings of a key in a dict (for well-formed dicts this is 0 or 1). -/
def countKey (d : Dict) (k : String) : Nat :=
  (d.filter (fun kv => kv.1 = k)).length

/-- Python truthiness for the modelled values. -/
def PyVal.truthy : PyVal → Bool
  | .none => false
  | .bool b => b
  | .int n => n != 0
  | .str s => s.length != 0
  | .list xs => xs.length != 0
  | .dict kvs => kvs.length != 0

/-- `v is None`. -/
def PyVal.isNone : PyVal → Bool
  | .none => true
  | _ => false

/-- `v is False` (identity with the `False` singleton, not falsiness). -/
def PyVal.isFalseLit : PyVal → Bool
  | .bool b => !b
  | _ => false

/-- `len(v)` for sized values, `none` when `len` would raise `TypeError`. -/
def PyVal.len? : PyVal → Option Nat
  | .str s => some s.length
  | .list xs => some xs.length
  | .dict kvs => some kvs.length
  | _ => Option.none

/-- `v[i]` for an integer index: only lists are indexed by the collector. -/
def PyVal.index (v : PyVal) (i : Nat) : Except Exc PyVal :=
  match v with
  | .list xs =>
    match xs.get? i with
    | some x => Except.ok x
    | Option.none => Except.error Exc.indexError
  | _ => Except.error Exc.typeError

/-- `v[k]` for a string key: `KeyError` when absent, `TypeError` on a non-dict. -/
def PyVal.getItem (v : PyVal) (k : String) : Except Exc PyVal :=
  match v with
  | .dict kvs => dictGetItemE kvs k
  | _ => Except.error Exc.typeError

/-- `v.get(k)` (dict method, default `None`); `AttributeError` on a non-dict. -/
def PyVal.getMethod (v : PyVal) (k : String) : Except Exc PyVal :=
  match v with
  | .dict kvs => Except.ok ((dictGet? kvs k).getD PyVal.none)
  | _ => Except.error Exc.attributeError

/-- `v.has_key(k)` (dict method); `AttributeError` on a non-dict. -/
def PyVal.hasKeyMethod (v : PyVal) (k : String) : Except Exc Bool :=
  match v with
  | .dict kvs => Except.ok (dictHasKey kvs k)
  | _ => Except.error Exc.attributeError

/-- `del v[k]` (dict deletion through a `PyVal`); `TypeError` on a non-dict. -/
def PyVal.delKeyMethod (v : PyVal) (k : String) : Except Exc PyVal :=
  match v with
  | .dict kvs => Except.ok (PyVal.dict (dictDel kvs k))
  | _ => Except.error Exc.typeError

/-- `payload.update(v)`: merge a mapping into a dict; `TypeError` otherwise. -/
def dictUpdate (d : Dict) (v : PyVal) : Except Exc Dict :=
  match v with
  | .dict kvs => Except.ok (kvs.foldl (fun acc kv => dictSet acc kv.1 kv.2) d)
  | _ => Except.error Exc.typeError

/-- `ms.extend(v)`: only list arguments occur at the collector's extend sites. -/
def listExtend (ms : List PyVal) (v : PyVal) : Except Exc (List PyVal) :=
  match v with
  | .list xs => Except.ok (ms ++ xs)
  | _ => Except.error Exc.typeError

theorem dictGet?_set_self (d : Dict) (k : String) (v : PyVal) :
    dictGet? (dictSet d k v) k = some v := by
  induction d with
  | nil => simp [dictSet, dictGet?]
  | cons kv rest ih =>
    by_cases h : kv.1 = k
    · simp [dictSet, dictGet?, h]
    · simp [dictSet, dictGet?, h, ih]

theorem dictGet?_set_other (d : Dict) (k k2 : String) (v : PyVal) (h : k2 ≠ k) :
    dictGet? (dictSet d k v) k2 = dictGet? d k2 := by
  induction d with
  | nil => simp [dictSet, dictGet?, Ne.symm h]
  | cons kv rest ih =>
    obtain ⟨k1, v1⟩ := kv
    by_cases h1 : k1 = k
    · subst h1
      simp [dictSet, dictGet?, Ne.symm h]
    · simp [dictSet, dictGet?, h1, ih]

/-- An emitter: `emitter(payload, log, config)` identified by `emitter.__name__`
(collector.py lines 332-347). Its behaviour is a function of the payload it
receives; an exception it raises is the `Except.error` case. -/
structure Emitter where
  name : String
  emit : Dict → Except Exc Unit

/-- The collector's persistent state (the fields of `Collector.__init__` that
the run loop reads or writes). The mutable `continue_running` flag, which
`stop()` may flip concurrently, is modelled separately as the sequence of
values the run observes at its successive poll sites (see `Collector.run`). -/
structure Collector where
  os : String
  agent_version : String
  api_key : String
  tags : PyVal
  system_stats : PyVal
  metadata_interval : Int
  metadata_start : Int
  run_count : Nat
  metadata_cache : Option PyVal
  emitters : List Emitter

/-- Inputs that `_build_payload` obtains from external collaborators:
`gethostname`, `get_uuid`, `sys.version`, the startup-event clock reading, and
the result of `self._get_metadata()` (EC2/socket lookups, out of scope). -/
structure BuildInputs where
  internalHostname : String
  uuid : String
  python_version : String
  startup_timestamp : Int
  metadata_result : PyVal

/-- The payload under construction. In the source (lines 141-143) `metrics`
and `events` are local aliases of `payload['metrics']` / `payload['events']`,
and `payload['resources']` is a nested dict; here they are carried as separate
components of the one payload value and reassembled by `assemblePayload`,
mirroring the reassignments at lines 316-317. -/
structure PayloadParts where
  base : Dict
  metrics : List PyVal
  events : Dict
  resources : Dict

/-- `Collector._is_first_run` (line 349). -/
def Collector.isFirstRun (c : Collector) : Bool :=
  c.run_count ≤ 1

/-- `Collector._should_send_metadata` (lines 415-423): returns the decision and
the collector with `metadata_start` reset as a side effect exactly on `True`. -/
def Collector.shouldSendMetadata (c : Collector) (now : Int) : Bool × Collector :=
  if now - c.metadata_start ≥ c.metadata_interval then
    (true, { c with metadata_start := now })
  else
    (false, c)

/-- `Collector._build_payload` (lines 352-389). `now` stands for the
`time.time()` readings taken during the build. The `or` at line 382
short-circuits: on the first run `_should_send_metadata` is not called. -/
def Collector.buildPayload (c : Collector) (now : Int) (b : BuildInputs) :
    Collector × PayloadParts :=
  let base : Dict := [
    ("collection_timestamp", PyVal.int now),
    ("os", PyVal.str c.os),
    ("python", PyVal.str b.python_version),
    ("agentVersion", PyVal.str c.agent_version),
    ("apiKey", PyVal.str c.api_key),
    ("internalHostname", PyVal.str b.internalHostname),
    ("uuid", PyVal.str b.uuid)]
  let events : Dict := []
  -- Include system stats and the Agent Startup event on first postback
  let base := if c.isFirstRun then dictSet base "systemStats" c.system_stats else base
  let events :=
    if c.isFirstRun then
      dictSet events "System" (PyVal.list [PyVal.dict [
        ("api_key", PyVal.str c.api_key),
        ("host", PyVal.str b.internalHostname),
        ("timestamp", PyVal.int b.startup_timestamp),
        ("event_type", PyVal.str "Agent Startup"),
        ("msg_text", PyVal.str ("Version " ++ c.agent_version))]])
    else events
  -- Periodically send the host metadata (line 382: `or` short-circuits)
  let (send, c) := if c.isFirstRun then (true, c) else c.shouldSendMetadata now
  let (base, c) :=
    if send then
      let base := dictSet base "meta" b.metadata_result
      let c := { c with metadata_cache := some b.metadata_result }
      let base := if !c.tags.isNone then dictSet base "tags" c.tags else base
      (base, c)
    else (base, c)
  (c, ⟨base, [], events, []⟩)

/-- Results of the seven Unix system-check invocations (lines 158-195), in
call order. -/
structure SysInputs where
  disk : Except Exc PyVal
  load : Except Exc PyVal
  memory : Except Exc PyVal
  io : Except Exc PyVal
  processes : Except Exc PyVal
  network : Except Exc PyVal
  cpu : Except Exc PyVal

/-- Lines 158-161: `if diskUsage and len(diskUsage) == 2`. -/
def diskStep (res : Except Exc PyVal) (p : PayloadParts) : Except Exc PayloadParts := do
  let diskUsage ← res
  if diskUsage.truthy then
    match diskUsage.len? with
    | some n =>
      if n = 2 then do
        let d0 ← diskUsage.index 0
        let d1 ← diskUsage.index 1
        pure { p with base := dictSet (dictSet p.base "diskUsage" d0) "inodes" d1 }
      else pure p
    | Option.none => Except.error Exc.typeError
  else pure p

/-- Lines 163-164: `payload.update(load)`, unconditionally. -/
def loadStep (res : Except Exc PyVal) (p : PayloadParts) : Except Exc PayloadParts := do
  let load ← res
  let base ← dictUpdate p.base load
  pure { p with base }

/-- Lines 166-181: the twelve memory fields, merged only when `memory` is truthy. -/
def memoryStep (res : Except Exc PyVal) (p : PayloadParts) : Except Exc PayloadParts := do
  let memory ← res
  if memory.truthy then do
    let physUsed ← memory.getMethod "physUsed"
    let physPctUsable ← memory.getMethod "physPctUsable"
    let physFree ← memory.getMethod "physFree"
    let physTotal ← memory.getMethod "physTotal"
    let physUsable ← memory.getMethod "physUsable"
    let swapUsed ← memory.getMethod "swapUsed"
    let swapFree ← memory.getMethod "swapFree"
    let swapPctFree ← memory.getMethod "swapPctFree"
    let swapTotal ← memory.getMethod "swapTotal"
    let physCached ← memory.getMethod "physCached"
    let physBuffers ← memory.getMethod "physBuffers"
    let physShared ← memory.getMethod "physShared"
    let base ← dictUpdate p.base (PyVal.dict [
      ("memPhysUsed", physUsed),
      ("memPhysPctUsable", physPctUsable),
      ("memPhysFree", physFree),
      ("memPhysTotal", physTotal),
      ("memPhysUsable", physUsable),
      ("memSwapUsed", swapUsed),
      ("memSwapFree", swapFree),
      ("memSwapPctFree", swapPctFree),
      ("memSwapTotal", swapTotal),
      ("memCached", physCached),
      ("memBuffers", physBuffers),
      ("memShared", physShared)])
    pure { p with base }
  else pure p

/-- Lines 183-185: `if ioStats: payload['ioStats'] = ioStats`. -/
def ioStep (res : Except Exc PyVal) (p : PayloadParts) : Except Exc PayloadParts := do
  let ioStats ← res
  if ioStats.truthy then pure { p with base := dictSet p.base "ioStats" ioStats }
  else pure p

/-- Lines 187-188: `payload.update({'processes': processes})`, unconditionally. -/
def processesStep (res : Except Exc PyVal) (p : PayloadParts) : Except Exc PayloadParts := do
  let processes ← res
  let base ← dictUpdate p.base (PyVal.dict [("processes", processes)])
  pure { p with base }

/-- Lines 190-191: `payload.update({'networkTraffic': networkTraffic})`, unconditionally. -/
def networkStep (res : Except Exc PyVal) (p : PayloadParts) : Except Exc PayloadParts := do
  let networkTraffic ← res
  let base ← dictUpdate p.base (PyVal.dict [("networkTraffic", networkTraffic)])
  pure { p with base }

/-- Lines 193-195: `if cpuStats: payload.update(cpuStats)`. -/
def cpuStep (res : Except Exc PyVal) (p : PayloadParts) : Except Exc PayloadParts := do
  let cpuStats ← res
  if cpuStats.truthy then do
    let base ← dictUpdate p.base cpuStats
    pure { p with base }
  else pure p

/-- The Unix system-check block (lines 154-195), in source order. -/
def runUnixSystemChecks (sys : SysInputs) (p : PayloadParts) : Except Exc PayloadParts := do
  let p ← diskStep sys.disk p
  let p ← loadStep sys.load p
  let p ← memoryStep sys.memory p
  let p ← ioStep sys.io p
  let p ← processesStep sys.processes p
  let p ← networkStep sys.network p
  let p ← cpuStep sys.cpu p
  pure p

/-- Results of the six Win32 system-check invocations (lines 148-153), in
call order: disk, memory, cpu, network, io, proc. -/
structure WinInputs where
  disk : Except Exc PyVal
  memory : Except Exc PyVal
  cpu : Except Exc PyVal
  network : Except Exc PyVal
  io : Except Exc PyVal
  proc : Except Exc PyVal

/-- One `metrics.extend(check(self.agentConfig))` of the Win32 block. -/
def winStep (res : Except Exc PyVal) (p : PayloadParts) : Except Exc PayloadParts := do
  let r ← res
  let metrics ← listExtend p.metrics r
  pure { p with metrics }

/-- The Win32 system-check block (lines 146-153). -/
def runWin32SystemChecks (w : WinInputs) (p : PayloadParts) : Except Exc PayloadParts := do
  let p ← winStep w.disk p
  let p ← winStep w.memory p
  let p ← winStep w.cpu p
  let p ← winStep w.network p
  let p ← winStep w.io p
  let p ← winStep w.proc p
  pure p

/-- Results of the eight old-style check invocations (lines 198-205), in call
order: mysql, rabbitmq, mongodb, couchdb, ganglia, cassandra, dogstream,
ddforwarder. -/
structure LegacyInputs where
  mysql : Except Exc PyVal
  rabbitmq : Except Exc PyVal
  mongodb : Except Exc PyVal
  couchdb : Except Exc PyVal
  ganglia : Except Exc PyVal
  cassandra : Except Exc PyVal
  dogstream : Except Exc PyVal
  ddforwarder : Except Exc PyVal

/-- Lines 222-226: the MongoDB merge. A truthy result with an `events` key has
`result['events']['Mongo']` assigned into the event mapping under `'Mongo'`,
the whole `events` sub-mapping deleted, and the remainder stored at
`payload['mongoDB']`. -/
def mongoMerge (mongodb : PyVal) (p : PayloadParts) : Except Exc PayloadParts := do
  if mongodb.truthy then do
    let hk ← mongodb.hasKeyMethod "events"
    if hk then do
      let ev ← mongodb.getItem "events"
      let mongoEvents ← ev.getItem "Mongo"
      let events := dictSet p.events "Mongo" mongoEvents
      let mongodb2 ← mongodb.delKeyMethod "events"
      pure { p with events, base := dictSet p.base "mongoDB" mongodb2 }
    else
      pure { p with base := dictSet p.base "mongoDB" mongodb }
  else pure p

/-- Lines 233-242: the dogstream merge. `dogstreamEvents` (via `.get`) is
appended to `events['dogstream']` when that key exists, else assigned; the
`dogstreamEvents` key is deleted and the remainder merged into the payload. -/
def dogstreamMerge (dogstreamData : PyVal) (p : PayloadParts) : Except Exc PayloadParts := do
  if dogstreamData.truthy then do
    let dogstreamEvents ← dogstreamData.getMethod "dogstreamEvents"
    if dogstreamEvents.truthy then do
      let events ←
        match dictGet? p.events "dogstream" with
        | some (PyVal.list xs) =>
          match dogstreamEvents with
          | PyVal.list ys => pure (dictSet p.events "dogstream" (PyVal.list (xs ++ ys)))
          | _ => Except.error Exc.typeError
        | some _ => Except.error Exc.attributeError
        | Option.none => pure (dictSet p.events "dogstream" dogstreamEvents)
      let d2 ← dogstreamData.delKeyMethod "dogstreamEvents"
      let base ← dictUpdate p.base d2
      pure { p with events, base }
    else do
      let base ← dictUpdate p.base dogstreamData
      pure { p with base }
  else pure p

/-- The old-style check block (lines 197-246): all eight checks are invoked
first, in call order, then their results are merged in the source's order. -/
def runLegacyChecks (leg : LegacyInputs) (p : PayloadParts) : Except Exc PayloadParts := do
  let mysqlStatus ← leg.mysql
  let rabbitmq ← leg.rabbitmq
  let mongodb ← leg.mongodb
  let couchdb ← leg.couchdb
  let gangliaData ← leg.ganglia
  let cassandraData ← leg.cassandra
  let dogstreamData ← leg.dogstream
  let ddforwarderData ← leg.ddforwarder
  -- lines 207-208: `if gangliaData is not False and gangliaData is not None`
  let p := if !gangliaData.isFalseLit && !gangliaData.isNone then
      { p with base := dictSet p.base "ganglia" gangliaData } else p
  -- lines 210-211
  let p := if !cassandraData.isFalseLit && !cassandraData.isNone then
      { p with base := dictSet p.base "cassandra" cassandraData } else p
  -- lines 214-215: `if mysqlStatus: payload.update(mysqlStatus)`
  let p ← if mysqlStatus.truthy then do
      let base ← dictUpdate p.base mysqlStatus
      pure { p with base }
    else pure p
  -- lines 218-219
  let p := if rabbitmq.truthy then { p with base := dictSet p.base "rabbitMQ" rabbitmq } else p
  -- lines 222-226
  let p ← mongoMerge mongodb p
  -- lines 229-230
  let p := if couchdb.truthy then { p with base := dictSet p.base "couchDB" couchdb } else p
  -- lines 233-242
  let p ← dogstreamMerge dogstreamData p
  -- lines 245-246
  let p := if ddforwarderData.truthy then
      { p with base := dictSet p.base "datadog" ddforwarderData } else p
  pure p

/-- An event check: `event_check.check(log, config)` plus its declared
`event_check.key` (lines 249-252). -/
structure EventCheck where
  key : String
  check : Except Exc PyVal

/-- One iteration of the event-check loop (lines 249-252): a truthy result is
assigned at `events[event_check.key]`, overwriting any prior value. -/
def eventCheckStep (ec : EventCheck) (p : PayloadParts) : Except Exc PayloadParts := do
  let event_data ← ec.check
  if event_data.truthy then pure { p with events := dictSet p.events ec.key event_data }
  else pure p

/-- The event-check loop (lines 248-252). -/
def runEventChecks (ecs : List EventCheck) (p : PayloadParts) : Except Exc PayloadParts :=
  match ecs with
  | [] => pure p
  | ec :: rest => do
    let p ← eventCheckStep ec p
    runEventChecks rest p

/-- A resource check's observable behaviour in one run: `check()` (which may
raise), then `pop_snapshots()`, `get_format_version()`,
`describe_format_if_needed()` and the declared `RESOURCE_KEY` (lines 255-267). -/
structure ResourceCheck where
  RESOURCE_KEY : String
  check : Except Exc Unit
  pop_snapshots : PyVal
  get_format_version : PyVal
  describe_format_if_needed : PyVal

/-- One iteration of the resource loop (lines 257-267), threading the
`has_resource` flag. -/
def resourceCheckStep (rc : ResourceCheck) (p : PayloadParts) (has_resource : Bool) :
    Except Exc (PayloadParts × Bool) := do
  let _ ← rc.check
  let snaps := rc.pop_snapshots
  if snaps.truthy then
    let res_value : Dict := [("snaps", snaps), ("format_version", rc.get_format_version)]
    let res_format := rc.describe_format_if_needed
    let res_value := if !res_format.isNone then
        dictSet res_value "format_description" res_format else res_value
    pure ({ p with resources := dictSet p.resources rc.RESOURCE_KEY (PyVal.dict res_value) }, true)
  else
    pure (p, has_resource)

/-- The resource-check loop (lines 256-267). -/
def runResourceList (rcs : List ResourceCheck) (p : PayloadParts) (has_resource : Bool) :
    Except Exc (PayloadParts × Bool) :=
  match rcs with
  | [] => pure (p, has_resource)
  | rc :: rest => do
    let (p, has_resource) ← resourceCheckStep rc p has_resource
    runResourceList rest p has_resource

/-- The resources block (lines 254-273): skipped on Windows; after the loop,
`payload['resources']['meta']` is attached once when any check produced data. -/
def runResourcePhase (os api_key : String) (rcs : List ResourceCheck) (p : PayloadParts) :
    Except Exc PayloadParts := do
  if os ≠ "windows" then do
    let (p, has_resource) ← runResourceList rcs p false
    if has_resource then do
      let host ← dictGetItemE p.base "internalHostname"
      let meta := PyVal.dict [("api_key", PyVal.str api_key), ("host", host)]
      pure { p with resources := dictSet p.resources "meta" meta }
    else pure p
  else pure p

/-- A newer-style (not checks.d) metric check invocation (lines 276-279). -/
structure MetricsCheck where
  check : Except Exc PyVal

/-- One iteration of the metric-check loop: `if res: metrics.extend(res)`. -/
def metricsCheckStep (mc : MetricsCheck) (p : PayloadParts) : Except Exc PayloadParts := do
  let res ← mc.check
  if res.truthy then do
    let metrics ← listExtend p.metrics res
    pure { p with metrics }
  else pure p

/-- The metric-check loop (lines 275-279). -/
def runMetricsChecks (mcs : List MetricsCheck) (p : PayloadParts) : Except Exc PayloadParts :=
  match mcs with
  | [] => pure p
  | mc :: rest => do
    let p ← metricsCheckStep mc p
    runMetricsChecks rest p

/-- A checks.d plugin check (the `checksd` argument of `run`): its `name`, the
outcome of `run()` (a value of instance statuses, or a raised exception), and
the lists `get_metrics()` / `get_events()` would return if called. Per the
spec's adapter contract (section 4.1) `get_metrics` and `get_events` are
assumed not to raise. -/
structure PluginCheck where
  name : String
  run : Except Exc PyVal
  get_metrics : List PyVal
  get_events : List PyVal

/-- Calls the checks.d loop makes on a plugin check, recorded in order. -/
inductive CallEvent : Type where
  | callRun (name : String)
  | callGetMetrics (name : String)
  | callGetEvents (name : String)
deriving DecidableEq, Repr

/-- Modelled from the spec: `CheckStatus` lives in `checks/check_status.py`,
which is not under `src/`; section 3 of the spec describes it as carrying the
check name, the instance-level statuses, the metric and event counts, "and an
error indicator if the check raised". The `error` field defaults to `none`;
whether it is ever set is decided by the call site in `src/checks/collector.py`
line 312. -/
structure CheckStatus where
  name : String
  instance_statuses : PyVal
  metric_count : Nat
  event_count : Nat
  error : Option Exc := Option.none

/-- Modelled from the spec: `EmitterStatus` (also `checks/check_status.py`,
not under `src/`), "emitter name and an error indicator if invocation raised";
both constructor forms `EmitterStatus(name)` and `EmitterStatus(name, e)`
appear in `src/checks/collector.py` lines 340 and 345. -/
structure EmitterStatus where
  name : String
  error : Option Exc := Option.none

/-- Result of processing one plugin check. -/
structure PluginOut where
  p : PayloadParts
  status : CheckStatus
  trace : List CallEvent

/-- The body of one checks.d iteration (lines 288-313). The whole sequence
`run(); get_metrics(); get_events(); metrics.extend(...); events merge;
metric_count = ...; event_count = ...` sits in one `try`: an exception at any
point jumps to the `except` (which only logs), keeping every mutation made
before it, and the `CheckStatus` is then built from the locals as they stand.
If `run()` raises, `get_metrics`/`get_events` are never called. If the event
merge `events[check.name] += current_check_events` hits a non-list prior value
it raises `TypeError`, likewise caught, with the counts still 0. Line 312
passes no error to `CheckStatus`, so `error` keeps its default `none`. -/
def processPluginCheck (check : PluginCheck) (p : PayloadParts) : PluginOut :=
  match check.run with
  | Except.error _e =>
    ⟨p, ⟨check.name, PyVal.list [], 0, 0, Option.none⟩, [CallEvent.callRun check.name]⟩
  | Except.ok instance_statuses =>
    let current_check_metrics := check.get_metrics
    let current_check_events := check.get_events
    let metrics := p.metrics ++ current_check_metrics
    let trace := [CallEvent.callRun check.name, CallEvent.callGetMetrics check.name,
      CallEvent.callGetEvents check.name]
    if current_check_events.length != 0 then
      match dictGet? p.events check.name with
      | Option.none =>
        let events := dictSet p.events check.name (PyVal.list current_check_events)
        ⟨{ p with metrics, events },
         ⟨check.name, instance_statuses, current_check_metrics.length,
          current_check_events.length, Option.none⟩, trace⟩
      | some (PyVal.list xs) =>
        let events := dictSet p.events check.name (PyVal.list (xs ++ current_check_events))
        ⟨{ p with metrics, events },
         ⟨check.name, instance_statuses, current_check_metrics.length,
          current_check_events.length, Option.none⟩, trace⟩
      | some _ =>
        ⟨{ p with metrics }, ⟨check.name, instance_statuses, 0, 0, Option.none⟩, trace⟩
    else
      ⟨{ p with metrics },
       ⟨check.name, instance_statuses, current_check_metrics.length, 0, Option.none⟩, trace⟩

/-- Result of the checks.d loop. -/
structure ChecksDOut where
  p : PayloadParts
  statuses : List CheckStatus
  trace : List CallEvent
  polls : Nat
  stopped : Bool

/-- The checks.d loop (lines 284-313). `flag i` is the value of
`self.continue_running` observed at the i-th poll of the run; `pollIdx`
counts polls made so far. A `false` read triggers the `return` at line 286. -/
def runChecksD (flag : Nat → Bool) (pollIdx : Nat) (checks : List PluginCheck)
    (p : PayloadParts) (statuses : List CheckStatus) (trace : List CallEvent) : ChecksDOut :=
  match checks with
  | [] => ⟨p, statuses, trace, pollIdx, false⟩
  | check :: rest =>
    if !flag pollIdx then
      ⟨p, statuses, trace, pollIdx + 1, true⟩
    else
      let out := processPluginCheck check p
      runChecksD flag (pollIdx + 1) rest out.p (statuses ++ [out.status]) (trace ++ out.trace)

/-- Result of `_emit`. `trace` records, in order, each emitter actually
invoked together with the payload it was handed. -/
structure EmitOut where
  statuses : List EmitterStatus
  trace : List (String × Dict)
  polls : Nat

/-- The loop of `_emit` (lines 335-346): `continue_running` is polled before
each emitter; an emitter exception is caught and recorded as a failed
`EmitterStatus`, and the loop continues. -/
def emitLoop (flag : Nat → Bool) (pollIdx : Nat) (payload : Dict) (ems : List Emitter)
    (statuses : List EmitterStatus) (trace : List (String × Dict)) : EmitOut :=
  match ems with
  | [] => ⟨statuses, trace, pollIdx⟩
  | em :: rest =>
    if !flag pollIdx then
      ⟨statuses, trace, pollIdx + 1⟩
    else
      let trace := trace ++ [(em.name, payload)]
      match em.emit payload with
      | Except.ok _ =>
        emitLoop flag (pollIdx + 1) payload rest (statuses ++ [⟨em.name, Option.none⟩]) trace
      | Except.error e =>
        emitLoop flag (pollIdx + 1) payload rest (statuses ++ [⟨em.name, some e⟩]) trace

/-- `Collector._emit` (lines 332-347). -/
def Collector.emitPhase (c : Collector) (flag : Nat → Bool) (pollIdx : Nat) (payload : Dict) :
    EmitOut :=
  emitLoop flag pollIdx payload c.emitters [] []

/-- Modelled from the spec: the `CollectorStatus` snapshot built and persisted
at line 325 (`CollectorStatus` itself lives in `checks/check_status.py`, not
under `src/`): the run's check statuses, emitter statuses and the cached
metadata. Its `persist()` is external I/O whose failure is swallowed by the
`try`/`except` at lines 324-327. -/
structure CollectorStatusRec where
  check_statuses : List CheckStatus
  emitter_statuses : List EmitterStatus
  metadata_cache : Option PyVal

/-- `payload['metrics'] = metrics; payload['events'] = events` (lines 316-317)
together with the `resources` sub-dict the parts carry. -/
def assemblePayload (p : PayloadParts) : Dict :=
  dictSet (dictSet (dictSet p.base "resources" (PyVal.dict p.resources))
    "metrics" (PyVal.list p.metrics)) "events" (PyVal.dict p.events)

/-- All per-run inputs from external collaborators, one field per call site. -/
structure RunInputs where
  build : BuildInputs
  sys : SysInputs
  win : WinInputs
  legacy : LegacyInputs
  event_checks : List EventCheck
  resource_checks : List ResourceCheck
  metrics_checks : List MetricsCheck

/-- Lines 137-279 of `run`: counter increment, payload build, then the system,
legacy, event, resource and metric phases, in source order. An `Except.error`
is an exception propagating out of `Collector.run` (none of these phases is
wrapped in a `try`). -/
def runPhases (c : Collector) (now : Int) (inp : RunInputs) :
    Except Exc (Collector × PayloadParts) := do
  let c := { c with run_count := c.run_count + 1 }
  let (c, p) := c.buildPayload now inp.build
  let p ← if c.os = "windows" then runWin32SystemChecks inp.win p
          else runUnixSystemChecks inp.sys p
  let p ← runLegacyChecks inp.legacy p
  let p ← runEventChecks inp.event_checks p
  let p ← runResourcePhase c.os c.api_key inp.resource_checks p
  let p ← runMetricsChecks inp.metrics_checks p
  pure (c, p)

/-- What one call of `Collector.run` did. `stopped_early` is the `return` at
line 286; `payload` is the assembled payload handed to `_emit` (absent when
the run returned early); `persisted` is the `CollectorStatus` snapshot whose
`persist()` was invoked at line 325 (absent when the run returned early). -/
structure RunOutcome where
  collector : Collector
  stopped_early : Bool
  payload : Option Dict
  check_statuses : List CheckStatus
  emitter_statuses : List EmitterStatus
  emit_trace : List (String × Dict)
  call_trace : List CallEvent
  persisted : Option CollectorStatusRec

/-- `Collector.run` (lines 133-330). `flag` is the sequence of
`continue_running` values observed at the successive poll sites (checks.d
iterations first, then `_emit` iterations). -/
def Collector.run (c : Collector) (now : Int) (flag : Nat → Bool) (inp : RunInputs)
    (checksd : List PluginCheck) : Except Exc RunOutcome := do
  let (c, p) ← runPhases c now inp
  let cd := runChecksD flag 0 checksd p [] []
  if cd.stopped then
    pure ⟨c, true, Option.none, cd.statuses, [], [], cd.trace, Option.none⟩
  else
    let payload := assemblePayload cd.p
    let eo := c.emitPhase flag cd.polls payload
    pure ⟨c, false, some payload, cd.statuses, eo.statuses, eo.trace, cd.trace,
      some ⟨cd.statuses, eo.statuses, c.metadata_cache⟩⟩

theorem dictHasKey_set_self (d : Dict) (k : String) (v : PyVal) :
    dictHasKey (dictSet d k v) k = true := by
  simp [dictHasKey, dictGet?_set_self]

theorem dictHasKey_set_other (d : Dict) (k k2 : String) (v : PyVal) (h : k2 ≠ k) :
    dictHasKey (dictSet d k v) k2 = dictHasKey d k2 := by
  simp [dictHasKey, dictGet?_set_other _ _ _ _ h]

/-- A collector as `__init__` leaves it on a Unix host: no tags, default
600-second metadata interval, constructed (i.e. `metadata_start`) at t=0. -/
def c0 : Collector :=
  { os := "linux", agent_version := "3.3.0", api_key := "apikey",
    tags := PyVal.none, system_stats := PyVal.dict [],
    metadata_interval := 600, metadata_start := 0, run_count := 0,
    metadata_cache := Option.none, emitters := [] }

/-- Fixed external build inputs used by the concrete scenarios. -/
def b0 : BuildInputs :=
  { internalHostname := "host1", uuid := "uuid1", python_version := "2.7",
    startup_timestamp := 0, metadata_result := PyVal.dict [("hostname", PyVal.str "host1")] }

/-- Unix system checks that all return a falsy value. -/
def benignSys : SysInputs :=
  { disk := Except.ok (PyVal.list []), load := Except.ok (PyVal.dict []),
    memory := Except.ok PyVal.none, io := Except.ok PyVal.none,
    processes := Except.ok PyVal.none, network := Except.ok PyVal.none,
    cpu := Except.ok PyVal.none }

/-- Win32 system checks that all return an empty metric list. -/
def benignWin : WinInputs :=
  { disk := Except.ok (PyVal.list []), memory := Except.ok (PyVal.list []),
    cpu := Except.ok (PyVal.list []), network := Except.ok (PyVal.list []),
    io := Except.ok (PyVal.list []), proc := Except.ok (PyVal.list []) }

/-- Old-style checks that all report nothing. -/
def benignLegacy : LegacyInputs :=
  { mysql := Except.ok PyVal.none, rabbitmq := Except.ok PyVal.none,
    mongodb := Except.ok PyVal.none, couchdb := Except.ok PyVal.none,
    ganglia := Except.ok (PyVal.bool false), cassandra := Except.ok (PyVal.bool false),
    dogstream := Except.ok PyVal.none, ddforwarder := Except.ok PyVal.none }

/-- A run in which every non-checks.d collaborator succeeds and reports nothing. -/
def benignInputs : RunInputs :=
  { build := b0, sys := benignSys, win := benignWin, legacy := benignLegacy,
    event_checks := [], resource_checks := [], metrics_checks := [] }

/-- Empty payload parts, for claims about single phase steps. -/
def pEmpty : PayloadParts := ⟨[], [], [], []⟩

/-- A plugin check whose `run()` raises, with buffered metrics and events. -/
def badCheck : PluginCheck :=
  { name := "bad", run := Except.error (Exc.exc "boom"),
    get_metrics := [PyVal.int 1], get_events := [PyVal.str "ev1"] }

/-- A plugin check whose `run()` succeeds, with one metric and two events. -/
def goodCheck : PluginCheck :=
  { name := "good", run := Except.ok (PyVal.list [PyVal.str "instance-ok"]),
    get_metrics := [PyVal.int 7], get_events := [PyVal.str "e1", PyVal.str "e2"] }

/-- An emitter that always succeeds. -/
def okEmitter : Emitter := { name := "http_emitter", emit := fun _ => Except.ok () }

/-- The collector `c0` with one registered emitter. -/
def cEmit : Collector := { c0 with emitters := [okEmitter] }

/-- Extracts the result pair of a successful `runPhases` (default irrelevant:
used only on concrete successful runs). -/
def phasesOutD (r : Except Exc (Collector × PayloadParts)) : Collector × PayloadParts :=
  match r with
  | Except.ok x => x
  | Except.error _ => (c0, pEmpty)

/-- Scenario for C4: the collector during run #1, triggered at t=0. -/
def c4_c1 : Collector := { c0 with run_count := 1 }

/-- Payload build of run #1 at t=0. -/
def c4_r1 : Collector × PayloadParts := c4_c1.buildPayload 0 b0

/-- The collector during run #2, triggered at t=300. -/
def c4_c2 : Collector := { c4_r1.1 with run_count := 2 }

/-- Payload build of run #2 at t=300. -/
def c4_r2 : Collector × PayloadParts := c4_c2.buildPayload 300 b0

/-- The collector during run #3, triggered at t=650. -/
def c4_c3 : Collector := { c4_r2.1 with run_count := 3 }

/-- Payload build of run #3 at t=650. -/
def c4_r3 : Collector × PayloadParts := c4_c3.buildPayload 650 b0

/-- C4 (confirmed). The metadata decision of `_build_payload` (line 382) is
true on the very first run unconditionally; on any later run it equals
`_should_send_metadata`, which is true iff `now - metadata_start >=
metadata_interval` and resets `metadata_start` to `now` exactly when it
returns true; the `meta` block is attached to the payload exactly on the
sending runs; and with the default interval 600, runs at t=0 (run #1), t=300
and t=650 attach metadata on exactly the first and third runs. -/
theorem c4_metadata_scheduler :
    (∀ (c : Collector) (now : Int) (b : BuildInputs), c.isFirstRun = true →
      dictHasKey (c.buildPayload now b).2.base "meta" = true) ∧
    (∀ (c : Collector) (now : Int),
      (c.shouldSendMetadata now).1 = decide (now - c.metadata_start ≥ c.metadata_interval) ∧
      ((c.shouldSendMetadata now).1 = true → (c.shouldSendMetadata now).2.metadata_start = now) ∧
      ((c.shouldSendMetadata now).1 = false → (c.shouldSendMetadata now).2 = c)) ∧
    (∀ (c : Collector) (now : Int) (b : BuildInputs), c.isFirstRun = false →
      dictHasKey (c.buildPayload now b).2.base "meta" = (c.shouldSendMetadata now).1) ∧
    (dictHasKey c4_r1.2.base "meta" = true ∧ dictHasKey c4_r2.2.base "meta" = false ∧
      dictHasKey c4_r3.2.base "meta" = true) := by
  refine ⟨?_, ?_, ?_, by decide, by decide, by decide⟩
  · intro c now b h
    unfold Collector.buildPayload
    simp only [h, if_true, if_pos]
    by_cases ht : c.tags.isNone
    · simp [ht, dictHasKey_set_self]
    · simp [ht, dictHasKey_set_other _ _ _ _ (by decide : ("meta" : String) ≠ "tags"),
        dictHasKey_set_self]
  · intro c now
    unfold Collector.shouldSendMetadata
    by_cases h : now - c.metadata_start ≥ c.metadata_interval
    · simp [h]
    · simp [h]
  · intro c now b h
    unfold Collector.buildPayload
    simp only [h, if_false, Bool.false_eq_true]
    cases hs : c.shouldSendMetadata now with
    | mk send c2 =>
      cases send with
      | true =>
        by_cases ht : c2.tags.isNone
        · simp [hs, ht, dictHasKey_set_self]
        · simp [hs, ht, dictHasKey_set_other _ _ _ _ (by decide : ("meta" : String) ≠ "tags"),
            dictHasKey_set_self]
      | false =>
        simp [hs, dictHasKey, dictGet?]

/-- Witness for C4: the scheduler conjuncts applied at run #1 (t=0) and run #2
(t=300) of the concrete scenario. -/
theorem c4_metadata_scheduler_witness :
    dictHasKey (c4_c1.buildPayload 0 b0).2.base "meta" = true ∧
    dictHasKey (c4_c2.buildPayload 300 b0).2.base "meta" = (c4_c2.shouldSendMetadata 300).1 ∧
    (c4_c2.shouldSendMetadata 300).1 = false :=
  ⟨c4_metadata_scheduler.1 c4_c1 0 b0 rfl,
   c4_metadata_scheduler.2.2.1 c4_c2 300 b0 rfl,
   by decide⟩


/-- The `EmitterStatus` the loop body of `_emit` (lines 340-345) records for
one emitter: the plain status, or one carrying the raised exception. -/
def emitterExpected (em : Emitter) (payload : Dict) : EmitterStatus :=
  match em.emit payload with
  | Except.ok _ => ⟨em.name, Option.none⟩
  | Except.error e => ⟨em.name, some e⟩

theorem emitLoop_spec (flag : Nat → Bool) (payload : Dict) (ems : List Emitter)
    (start : Nat) (statuses : List EmitterStatus) (trace : List (String × Dict)) (k : Nat)
    (hk : k ≤ ems.length)
    (htrue : ∀ i, i < k → flag (start + i) = true)
    (hstop : k = ems.length ∨ flag (start + k) = false) :
    (emitLoop flag start payload ems statuses trace).statuses
        = statuses ++ (ems.take k).map (fun em => emitterExpected em payload) ∧
    (emitLoop flag start payload ems statuses trace).trace
        = trace ++ (ems.take k).map (fun em => (em.name, payload)) := by
  induction ems generalizing start statuses trace k with
  | nil =>
    have hk0 : k = 0 := Nat.le_zero.mp hk
    subst hk0
    simp [emitLoop]
  | cons em rest ih =>
    cases k with
    | zero =>
      rcases hstop with h | h
      · exact absurd h.symm (by simp)
      · simp only [Nat.add_zero] at h
        simp [emitLoop, h]
    | succ j =>
      have hf : flag start = true := by
        have h0 := htrue 0 (Nat.succ_pos j)
        simpa using h0
      have hk2 : j ≤ rest.length := by simpa using hk
      have htrue2 : ∀ i, i < j → flag (start + 1 + i) = true := by
        intro i hi
        have h1 := htrue (i + 1) (by omega)
        rw [show start + 1 + i = start + (i + 1) by omega]
        exact h1
      have hstop2 : j = rest.length ∨ flag (start + 1 + j) = false := by
        rcases hstop with h | h
        · left; simpa using h
        · right
          rw [show start + 1 + j = start + (j + 1) by omega]
          exact h
      cases hem : em.emit payload with
      | ok u =>
        have ihres := ih (start + 1) (statuses ++ [⟨em.name, Option.none⟩])
          (trace ++ [(em.name, payload)]) j hk2 htrue2 hstop2
        simp only [emitLoop, hf, Bool.not_true, Bool.false_eq_true, if_false, hem]
        rw [ihres.1, ihres.2]
        simp [emitterExpected, hem, List.append_assoc]
      | error e =>
        have ihres := ih (start + 1) (statuses ++ [⟨em.name, some e⟩])
          (trace ++ [(em.name, payload)]) j hk2 htrue2 hstop2
        simp only [emitLoop, hf, Bool.not_true, Bool.false_eq_true, if_false, hem]
        rw [ihres.1, ihres.2]
        simp [emitterExpected, hem, List.append_assoc]

/-- C6 (confirmed). `_emit` (lines 332-347) invokes the registered emitters in
registration order, each receiving the same payload; an emitter exception is
caught and recorded as a failed `EmitterStatus` while subsequent emitters still
run (`emitterExpected` is per-emitter); the stop flag is polled before each
invocation, and once it reads false only the statuses collected so far are
returned: for any prefix length `k` after which the flag goes false (or the
whole list), exactly the first `k` emitters are invoked and reported. -/
theorem c6_emit_dispatcher (c : Collector) (flag : Nat → Bool) (payload : Dict) (k : Nat)
    (hk : k ≤ c.emitters.length)
    (htrue : ∀ i, i < k → flag i = true)
    (hstop : k = c.emitters.length ∨ flag k = false) :
    (c.emitPhase flag 0 payload).statuses
        = (c.emitters.take k).map (fun em => emitterExpected em payload) ∧
    (c.emitPhase flag 0 payload).trace
        = (c.emitters.take k).map (fun em => (em.name, payload)) := by
  have h := emitLoop_spec flag payload c.emitters 0 [] [] k hk
    (by intro i hi; simpa using htrue i hi) (by simpa using hstop)
  simpa [Collector.emitPhase] using h

/-- An emitter that always raises. -/
def failEmitter : Emitter := { name := "fail_emitter", emit := fun _ => Except.error (Exc.exc "down") }

/-- A collector with a failing emitter registered before a healthy one. -/
def cTwoEmit : Collector := { c0 with emitters := [failEmitter, okEmitter] }

/-- Witness for C6: with the stop flag never set, both emitters of `cTwoEmit`
are invoked in order on the same payload; the first is recorded as failed with
its exception and the second still runs. -/
theorem c6_emit_dispatcher_witness :
    (cTwoEmit.emitPhase (fun _ => true) 0 []).statuses
        = [⟨"fail_emitter", some (Exc.exc "down")⟩, ⟨"http_emitter", Option.none⟩] ∧
    (cTwoEmit.emitPhase (fun _ => true) 0 []).trace
        = [("fail_emitter", []), ("http_emitter", [])] := by
  have h := c6_emit_dispatcher cTwoEmit (fun _ => true) [] 2 (by decide)
    (fun i hi => rfl) (Or.inl rfl)
  simpa [cTwoEmit, failEmitter, okEmitter, emitterExpected, c0] using h

theorem bind_ok_exc {α β : Type} (a : α) (f : α → Except Exc β) :
    (Except.ok a >>= f) = f a := rfl

theorem runChecksD_no_stop (flag : Nat → Bool) (hflag : ∀ i, flag i = true)
    (start : Nat) (checks : List PluginCheck) (p : PayloadParts)
    (statuses : List CheckStatus) (trace : List CallEvent) :
    (runChecksD flag start checks p statuses trace).stopped = false := by
  induction checks generalizing start p statuses trace with
  | nil => simp [runChecksD]
  | cons check rest ih => simp [runChecksD, hflag start, ih]

/-- The outcome `Collector.run` produces when it reaches lines 315-330: the
checks.d results, the assembled payload handed to `_emit`, the emitter
statuses, and the persisted `CollectorStatus` snapshot. -/
def runCompletedOutcome (c2 : Collector) (flag : Nat → Bool) (checksd : List PluginCheck)
    (p1 : PayloadParts) : RunOutcome :=
  let cd := runChecksD flag 0 checksd p1 [] []
  let payload := assemblePayload cd.p
  let eo := c2.emitPhase flag cd.polls payload
  ⟨c2, false, some payload, cd.statuses, eo.statuses, eo.trace, cd.trace,
    some ⟨cd.statuses, eo.statuses, c2.metadata_cache⟩⟩

theorem run_ok_of_phases (c : Collector) (now : Int) (flag : Nat → Bool) (inp : RunInputs)
    (checksd : List PluginCheck) (c2 : Collector) (p1 : PayloadParts)
    (hok : runPhases c now inp = Except.ok (c2, p1))
    (hns : (runChecksD flag 0 checksd p1 [] []).stopped = false) :
    Collector.run c now flag inp checksd = Except.ok (runCompletedOutcome c2 flag checksd p1) := by
  unfold Collector.run
  rw [hok]
  simp only [bind_ok_exc]
  rw [hns]
  simp only [Bool.false_eq_true, if_false, runCompletedOutcome]
  rfl

/-- Inputs whose MySQL legacy check raises; everything else is benign. -/
def c1Inputs : RunInputs :=
  { benignInputs with legacy := { benignLegacy with mysql := Except.error (Exc.exc "boom") } }

/-- Counterexample to C1 as stated: an exception raised by an individual check
invocation outside the checks.d loop is NOT caught by the orchestrator — in
this concrete run the MySQL legacy check (line 198, not wrapped in any `try`)
raises, and the exception propagates out of `Collector.run`, aborting the run
with no stop request involved. -/
theorem c1_counterexample :
    Collector.run c0 0 (fun _ => true) c1Inputs [] = Except.error (Exc.exc "boom") := rfl

/-- C1 amended: only checks.d plugin-check invocation exceptions are caught
and converted into a logged skip (the loop body's `try` at lines 291-311);
an exception from the system-probe, legacy, event, resource or metric phases
propagates out of `Collector.run` unchanged. When those phases all succeed, no
plugin-check exception can abort the run: it completes, emits and persists,
the only early exit being the external stop request. -/
theorem c1_amended_isolation (c : Collector) (now : Int) (flag : Nat → Bool)
    (inp : RunInputs) (checksd : List PluginCheck)
    (hflag : ∀ i, flag i = true) :
    (∀ e, runPhases c now inp = Except.error e →
      Collector.run c now flag inp checksd = Except.error e) ∧
    (∀ (c2 : Collector) (p1 : PayloadParts), runPhases c now inp = Except.ok (c2, p1) →
      Collector.run c now flag inp checksd =
        Except.ok (runCompletedOutcome c2 flag checksd p1) ∧
      (runCompletedOutcome c2 flag checksd p1).stopped_early = false ∧
      ((runCompletedOutcome c2 flag checksd p1).persisted).isSome = true) := by
  constructor
  · intro e he
    unfold Collector.run
    rw [he]
    rfl
  · intro c2 p1 hok
    have hns := runChecksD_no_stop flag hflag 0 checksd p1 [] []
    exact ⟨run_ok_of_phases c now flag inp checksd c2 p1 hok hns, rfl, rfl⟩

/-- Witness for the amended C1: a concrete benign run whose only plugin check
raises still completes (and would emit and persist). -/
theorem c1_amended_isolation_witness :
    Collector.run c0 0 (fun _ => true) benignInputs [badCheck] =
      Except.ok (runCompletedOutcome (phasesOutD (runPhases c0 0 benignInputs)).1
        (fun _ => true) [badCheck] (phasesOutD (runPhases c0 0 benignInputs)).2) :=
  ((c1_amended_isolation c0 0 (fun _ => true) benignInputs [badCheck] (fun _ => rfl)).2
    (phasesOutD (runPhases c0 0 benignInputs)).1
    (phasesOutD (runPhases c0 0 benignInputs)).2 rfl).1

/-- Counterexample to C2 as stated: in the source, `get_metrics()` and
`get_events()` (lines 296-297) sit INSIDE the same `try` as `run()` (line
293), so when `run()` raises, control jumps to the `except` and neither is
invoked: for the concrete check `badCheck`, whose `run()` raises and which has
a buffered metric and event, the loop body's call trace is `[run]` only —
contradicting "invoked after run() regardless of whether run() raised". -/
theorem c2_counterexample :
    badCheck.run = Except.error (Exc.exc "boom") ∧
    (processPluginCheck badCheck pEmpty).trace = [CallEvent.callRun "bad"] ∧
    CallEvent.callGetMetrics "bad" ∉ (processPluginCheck badCheck pEmpty).trace ∧
    CallEvent.callGetEvents "bad" ∉ (processPluginCheck badCheck pEmpty).trace := by
  refine ⟨rfl, rfl, by decide, by decide⟩

/-- C2 amended: `get_metrics()`/`get_events()` are invoked iff `run()` did not
raise. When `run()` raises, the body makes no further call, the payload parts
are unchanged (buffered partial results are lost, not collected), and the
`CheckStatus` records empty instance statuses and zero counts; when `run()`
returns, both getters are invoked after it. -/
theorem c2_amended_getters (check : PluginCheck) (p : PayloadParts) :
    (∀ e, check.run = Except.error e →
      (processPluginCheck check p).trace = [CallEvent.callRun check.name] ∧
      (processPluginCheck check p).p = p ∧
      (processPluginCheck check p).status =
        ⟨check.name, PyVal.list [], 0, 0, Option.none⟩) ∧
    (∀ ist, check.run = Except.ok ist →
      (processPluginCheck check p).trace =
        [CallEvent.callRun check.name, CallEvent.callGetMetrics check.name,
         CallEvent.callGetEvents check.name]) := by
  constructor
  · intro e he
    simp [processPluginCheck, he]
  · intro ist hok
    unfold processPluginCheck
    rw [hok]
    simp only []
    split
    · split <;> rfl
    · rfl

/-- Witness for the amended C2: the raising `badCheck` leaves the payload
untouched with a call trace of only `run()`; the healthy `goodCheck` has all
three calls in order. -/
theorem c2_amended_getters_witness :
    (processPluginCheck badCheck pEmpty).p = pEmpty ∧
    (processPluginCheck goodCheck pEmpty).trace =
      [CallEvent.callRun "good", CallEvent.callGetMetrics "good",
       CallEvent.callGetEvents "good"] :=
  ⟨((c2_amended_getters badCheck pEmpty).1 (Exc.exc "boom") rfl).2.1,
   (c2_amended_getters goodCheck pEmpty).2 (PyVal.list [PyVal.str "instance-ok"]) rfl⟩

/-- `true` iff the value is a Python list. -/
def isListVal : PyVal → Bool
  | .list _ => true
  | _ => false

/-- Every value of the event mapping is a list (the shape under which the
`events[check.name] += ...` merge at line 305 cannot raise). -/
def dictValsLists : Dict → Bool
  | [] => true
  | (_, v) :: rest => isListVal v && dictValsLists rest

theorem dictValsLists_get (d : Dict) (k : String) (v : PyVal)
    (hd : dictValsLists d = true) (hg : dictGet? d k = some v) : isListVal v = true := by
  induction d with
  | nil => simp [dictGet?] at hg
  | cons kv rest ih =>
    obtain ⟨k1, v1⟩ := kv
    simp only [dictValsLists, Bool.and_eq_true] at hd
    simp only [dictGet?] at hg
    by_cases h : k1 = k
    · rw [if_pos h] at hg
      cases hg
      exact hd.1
    · rw [if_neg h] at hg
      exact ih hd.2 hg

theorem dictValsLists_set (d : Dict) (k : String) (xs : List PyVal)
    (hd : dictValsLists d = true) :
    dictValsLists (dictSet d k (PyVal.list xs)) = true := by
  induction d with
  | nil => simp [dictSet, dictValsLists, isListVal]
  | cons kv rest ih =>
    obtain ⟨k1, v1⟩ := kv
    simp only [dictValsLists, Bool.and_eq_true] at hd
    by_cases h : k1 = k
    · simp [dictSet, h, dictValsLists, isListVal, hd.2]
    · simp [dictSet, h, dictValsLists, hd.1, ih hd.2]

/-- The `CheckStatus` that one checks.d iteration records, as a function of
the plugin check's behaviour (assuming a list-shaped event mapping): empty
instance statuses and zero counts for a raising check — with NO error
indicator, since line 312 passes none — and the true counts otherwise. -/
def expectedStatus (check : PluginCheck) : CheckStatus :=
  match check.run with
  | Except.error _ => ⟨check.name, PyVal.list [], 0, 0, Option.none⟩
  | Except.ok ist =>
    ⟨check.name, ist, check.get_metrics.length, check.get_events.length, Option.none⟩

theorem processPluginCheck_spec (check : PluginCheck) (p : PayloadParts)
    (hev : dictValsLists p.events = true) :
    (processPluginCheck check p).status = expectedStatus check ∧
    dictValsLists (processPluginCheck check p).p.events = true := by
  unfold processPluginCheck expectedStatus
  cases hr : check.run with
  | error e => exact ⟨rfl, hev⟩
  | ok ist =>
    simp only []
    by_cases hce : check.get_events.length = 0
    · simp [hce, hev]
    · have hce2 : (check.get_events.length != 0) = true := by
        simpa using hce
      simp only [hce2, if_true]
      cases hg : dictGet? p.events check.name with
      | none => exact ⟨rfl, dictValsLists_set _ _ _ hev⟩
      | some v =>
        have hl := dictValsLists_get p.events check.name v hev hg
        cases v with
        | list xs => exact ⟨rfl, dictValsLists_set _ _ _ hev⟩
        | none => simp [isListVal] at hl
        | bool b => simp [isListVal] at hl
        | int n => simp [isListVal] at hl
        | str s => simp [isListVal] at hl
        | dict kvs => simp [isListVal] at hl

theorem runChecksD_statuses (flag : Nat → Bool) (hflag : ∀ i, flag i = true)
    (start : Nat) (checks : List PluginCheck) (p : PayloadParts)
    (statuses : List CheckStatus) (trace : List CallEvent)
    (hev : dictValsLists p.events = true) :
    (runChecksD flag start checks p statuses trace).statuses
      = statuses ++ checks.map expectedStatus := by
  induction checks generalizing start p statuses trace with
  | nil => simp [runChecksD]
  | cons check rest ih =>
    have hs := processPluginCheck_spec check p hev
    simp only [runChecksD, hflag start, Bool.not_true, Bool.false_eq_true, if_false,
      List.map_cons]
    rw [ih (start + 1) _ _ _ hs.2, hs.1]
    simp [List.append_assoc]

/-- Counterexample to C3 as stated: a concrete run with a raising plugin check
(`badCheck`, first) and a healthy one (`goodCheck`) does reach the emit
dispatcher, but the `CheckStatus` recorded for the raising check does NOT have
an error flag set — line 312 builds `CheckStatus(check.name,
instance_statuses, metric_count, event_count)` without passing the caught
exception, so both statuses carry `none` as their error indicator. -/
theorem c3_counterexample :
    badCheck.run = Except.error (Exc.exc "boom") ∧
    Except.map (fun o => (o.check_statuses.map CheckStatus.error,
        o.emit_trace.map Prod.fst, o.stopped_early))
      (Collector.run cEmit 0 (fun _ => true) benignInputs [badCheck, goodCheck]) =
    Except.ok ([Option.none, Option.none], ["http_emitter"], false) :=
  ⟨rfl, rfl⟩

/-- C3 amended: a run whose pre-plugin phases succeed and in which any number
of plugin checks raise still completes and reaches the emit dispatcher (every
registered emitter is invoked); the `CheckStatus` recorded for a raising check
has empty instance statuses and zero metric/event counts but NO error
indicator (the exception is only logged); checks that did not fail get their
correct metric and event counts. -/
theorem c3_amended_statuses (c : Collector) (now : Int) (flag : Nat → Bool) (inp : RunInputs)
    (checksd : List PluginCheck) (c2 : Collector) (p1 : PayloadParts)
    (hflag : ∀ i, flag i = true)
    (hok : runPhases c now inp = Except.ok (c2, p1))
    (hev : dictValsLists p1.events = true) :
    Collector.run c now flag inp checksd =
      Except.ok (runCompletedOutcome c2 flag checksd p1) ∧
    (runCompletedOutcome c2 flag checksd p1).check_statuses = checksd.map expectedStatus ∧
    (runCompletedOutcome c2 flag checksd p1).emit_trace.map Prod.fst
      = c2.emitters.map Emitter.name ∧
    (∀ check : PluginCheck, ∀ e, check.run = Except.error e →
      expectedStatus check = ⟨check.name, PyVal.list [], 0, 0, Option.none⟩) ∧
    (∀ check : PluginCheck, ∀ ist, check.run = Except.ok ist →
      expectedStatus check =
        ⟨check.name, ist, check.get_metrics.length, check.get_events.length,
         Option.none⟩) := by
  have hns := runChecksD_no_stop flag hflag 0 checksd p1 [] []
  refine ⟨run_ok_of_phases c now flag inp checksd c2 p1 hok hns, ?_, ?_, ?_, ?_⟩
  · show (runChecksD flag 0 checksd p1 [] []).statuses = _
    simpa using runChecksD_statuses flag hflag 0 checksd p1 [] [] hev
  · show (c2.emitPhase flag (runChecksD flag 0 checksd p1 [] []).polls
      (assemblePayload (runChecksD flag 0 checksd p1 [] []).p)).trace.map Prod.fst = _
    have he := emitLoop_spec flag (assemblePayload (runChecksD flag 0 checksd p1 [] []).p)
      c2.emitters ((runChecksD flag 0 checksd p1 [] []).polls) [] [] c2.emitters.length
      (Nat.le_refl _) (fun i hi => hflag _) (Or.inl rfl)
    simp only [Collector.emitPhase]
    rw [he.2]
    simp [List.map_map, Function.comp]
  · intro check e he
    simp [expectedStatus, he]
  · intro check ist hok2
    simp [expectedStatus, hok2]

/-- Witness for the amended C3: the concrete two-check run of the
counterexample, via the general theorem. -/
theorem c3_amended_statuses_witness :
    Collector.run cEmit 0 (fun _ => true) benignInputs [badCheck, goodCheck] =
      Except.ok (runCompletedOutcome (phasesOutD (runPhases cEmit 0 benignInputs)).1
        (fun _ => true) [badCheck, goodCheck]
        (phasesOutD (runPhases cEmit 0 benignInputs)).2) ∧
    (runCompletedOutcome (phasesOutD (runPhases cEmit 0 benignInputs)).1
        (fun _ => true) [badCheck, goodCheck]
        (phasesOutD (runPhases cEmit 0 benignInputs)).2).check_statuses
      = [badCheck, goodCheck].map expectedStatus := by
  have h := c3_amended_statuses cEmit 0 (fun _ => true) benignInputs [badCheck, goodCheck]
    (phasesOutD (runPhases cEmit 0 benignInputs)).1
    (phasesOutD (runPhases cEmit 0 benignInputs)).2
    (fun _ => rfl) rfl (by decide)
  exact ⟨h.1, h.2.1⟩

/-- C7 (confirmed). Same-key event merges: in the checks.d loop (lines
301-305) a later contribution under an existing event key is appended after
the earlier one (`events[check.name] += current_check_events`), not
overwritten; whereas an event-oriented check (line 252,
`events[event_check.key] = event_data`) overwrites whatever was previously
stored under its key. -/
theorem c7_event_merge_semantics :
    (∀ (p : PayloadParts) (check : PluginCheck) (ist : PyVal) (xs : List PyVal),
      check.run = Except.ok ist →
      dictGet? p.events check.name = some (PyVal.list xs) →
      check.get_events ≠ [] →
      dictGet? (processPluginCheck check p).p.events check.name
        = some (PyVal.list (xs ++ check.get_events))) ∧
    (∀ (p : PayloadParts) (ec : EventCheck) (v : PyVal),
      ec.check = Except.ok v → v.truthy = true →
      eventCheckStep ec p = Except.ok { p with events := dictSet p.events ec.key v } ∧
      dictGet? (dictSet p.events ec.key v) ec.key = some v) := by
  constructor
  · intro p check ist xs hok hg hne
    have hne2 : (check.get_events.length != 0) = true := by
      simp only [bne_iff_ne, ne_eq, List.length_eq_zero]
      exact hne
    unfold processPluginCheck
    rw [hok]
    simp only [hne2, if_true, hg]
    simp [dictGet?_set_self]
  · intro p ec v hok ht
    unfold eventCheckStep
    rw [hok]
    simp only [bind_ok_exc, ht, if_true]
    exact ⟨rfl, dictGet?_set_self _ _ _⟩

/-- An event-oriented check (e.g. Nagios) contributing under key `nag`. -/
def nagCheck : EventCheck := { key := "nag", check := Except.ok (PyVal.str "new") }

/-- Payload parts with pre-existing event entries under both keys used by the
C7 witness: a list under `good` and a non-list prior value under `nag`. -/
def pPrior : PayloadParts :=
  ⟨[], [], [("good", PyVal.list [PyVal.str "e0"]), ("nag", PyVal.str "old")], []⟩

/-- Witness for C7: `goodCheck` appends its two events after the existing
`e0`; the event check `nagCheck` overwrites the prior value under `nag`. -/
theorem c7_event_merge_semantics_witness :
    dictGet? (processPluginCheck goodCheck pPrior).p.events "good"
      = some (PyVal.list ([PyVal.str "e0"] ++ [PyVal.str "e1", PyVal.str "e2"])) ∧
    eventCheckStep nagCheck pPrior =
      Except.ok { pPrior with events := dictSet pPrior.events "nag" (PyVal.str "new") } ∧
    dictGet? (dictSet pPrior.events "nag" (PyVal.str "new")) "nag" = some (PyVal.str "new") :=
  ⟨c7_event_merge_semantics.1 pPrior goodCheck (PyVal.list [PyVal.str "instance-ok"])
      [PyVal.str "e0"] rfl rfl (by simp [goodCheck]),
   (c7_event_merge_semantics.2 pPrior nagCheck (PyVal.str "new") rfl rfl).1,
   (c7_event_merge_semantics.2 pPrior nagCheck (PyVal.str "new") rfl rfl).2⟩

theorem countKey_nil (k : String) : countKey [] k = 0 := rfl

theorem countKey_cons (k1 : String) (v1 : PyVal) (rest : Dict) (k : String) :
    countKey ((k1, v1) :: rest) k = (if k1 = k then 1 else 0) + countKey rest k := by
  by_cases h : k1 = k
  · simp [countKey, List.filter, h]
    omega
  · simp [countKey, List.filter, h]

theorem countKey_set_ne (d : Dict) (k k2 : String) (v : PyVal) (h : k2 ≠ k) :
    countKey (dictSet d k2 v) k = countKey d k := by
  induction d with
  | nil => simp [dictSet, countKey_cons, countKey_nil, h]
  | cons kv rest ih =>
    obtain ⟨k1, v1⟩ := kv
    by_cases h1 : k1 = k2
    · subst h1
      simp [dictSet, countKey_cons, h]
    · simp [dictSet, h1, countKey_cons, ih]

theorem countKey_set_of_zero (d : Dict) (k : String) (v : PyVal)
    (h : countKey d k = 0) : countKey (dictSet d k v) k = 1 := by
  induction d with
  | nil => simp [dictSet, countKey_cons, countKey_nil]
  | cons kv rest ih =>
    obtain ⟨k1, v1⟩ := kv
    rw [countKey_cons] at h
    by_cases h1 : k1 = k
    · simp [h1] at h
    · rw [if_neg h1, Nat.zero_add] at h
      simp [dictSet, h1, countKey_cons, ih h]

theorem dictGet?_none_of_countKey_zero (d : Dict) (k : String)
    (h : countKey d k = 0) : dictGet? d k = Option.none := by
  induction d with
  | nil => rfl
  | cons kv rest ih =>
    obtain ⟨k1, v1⟩ := kv
    rw [countKey_cons] at h
    by_cases h1 : k1 = k
    · simp [h1] at h
    · rw [if_neg h1, Nat.zero_add] at h
      simp [dictGet?, h1, ih h]
/-- The `res_value` dict one resource-loop iteration builds (lines 262-266). -/
def resValueOf (rc : ResourceCheck) : Dict :=
  let res_value : Dict := [("snaps", rc.pop_snapshots), ("format_version", rc.get_format_version)]
  if !rc.describe_format_if_needed.isNone then
    dictSet res_value "format_description" rc.describe_format_if_needed
  else res_value

theorem resourceCheckStep_ok (rc : ResourceCheck) (p : PayloadParts) (hr : Bool)
    (hrc : rc.check = Except.ok ()) :
    resourceCheckStep rc p hr = Except.ok
      (if rc.pop_snapshots.truthy then
        ({ p with resources := dictSet p.resources rc.RESOURCE_KEY (PyVal.dict (resValueOf rc)) },
          true)
      else (p, hr)) := by
  unfold resourceCheckStep resValueOf
  rw [hrc]
  by_cases hs : rc.pop_snapshots.truthy
  · simp [hs]
  · simp [hs]

theorem runResourceList_spec (rcs : List ResourceCheck) (p : PayloadParts) (hr : Bool)
    (hok : ∀ rc ∈ rcs, rc.check = Except.ok ()) :
    ∃ p2 : PayloadParts,
      runResourceList rcs p hr
        = Except.ok (p2, hr || rcs.any (fun rc => rc.pop_snapshots.truthy)) ∧
      p2.base = p.base ∧
      (∀ k2 : String, (∀ rc ∈ rcs, rc.RESOURCE_KEY ≠ k2) →
        dictGet? p2.resources k2 = dictGet? p.resources k2 ∧
        countKey p2.resources k2 = countKey p.resources k2) := by
  induction rcs generalizing p hr with
  | nil =>
    refine ⟨p, ?_, rfl, fun k2 _ => ⟨rfl, rfl⟩⟩
    simp only [runResourceList, List.any_nil, Bool.or_false]
    rfl
  | cons rc rest ih =>
    have hrc : rc.check = Except.ok () := hok rc (List.mem_cons_self rc rest)
    have hok2 : ∀ r ∈ rest, r.check = Except.ok () :=
      fun r hm => hok r (List.mem_cons_of_mem rc hm)
    by_cases hs : rc.pop_snapshots.truthy
    · obtain ⟨p2, heq, hbase, hpres⟩ := ih
        { p with resources := dictSet p.resources rc.RESOURCE_KEY (PyVal.dict (resValueOf rc)) }
        true hok2
      refine ⟨p2, ?_, hbase, ?_⟩
      · simp only [runResourceList, resourceCheckStep_ok rc p hr hrc, hs, if_true, bind_ok_exc]
        rw [heq]
        simp [hs]
      · intro k2 hk2
        have hne : rc.RESOURCE_KEY ≠ k2 := hk2 rc (List.mem_cons_self rc rest)
        have h2 := hpres k2 (fun r hm => hk2 r (List.mem_cons_of_mem rc hm))
        refine ⟨?_, ?_⟩
        · rw [h2.1]
          exact dictGet?_set_other _ _ _ _ (Ne.symm hne)
        · rw [h2.2]
          exact countKey_set_ne _ _ _ _ hne
    · obtain ⟨p2, heq, hbase, hpres⟩ := ih p hr hok2
      have hs2 : rc.pop_snapshots.truthy = false := by simpa using hs
      refine ⟨p2, ?_, hbase,
        fun k2 hk2 => hpres k2 (fun r hm => hk2 r (List.mem_cons_of_mem rc hm))⟩
      simp only [runResourceList, resourceCheckStep_ok rc p hr hrc, hs2, Bool.false_eq_true,
        if_false, bind_ok_exc, List.any_cons, Bool.false_or]
      exact heq

/-- C8 (confirmed). In a run whose resource checks all succeed (and whose
declared resource keys do not collide with the reserved key `meta`, as holds
for the one registered check, keyed `processes`), the shared `meta` record is
attached to the payload's resource mapping iff the run is not on Windows and
at least one resource check produced a truthy (non-empty) snapshot list, and
the `meta` key is bound at most once. -/
theorem c8_resource_meta (os api_key : String) (rcs : List ResourceCheck) (p : PayloadParts)
    (hok : ∀ rc ∈ rcs, rc.check = Except.ok ())
    (hkeys : ∀ rc ∈ rcs, rc.RESOURCE_KEY ≠ "meta")
    (hmeta : countKey p.resources "meta" = 0)
    (hhost : dictHasKey p.base "internalHostname" = true) :
    ∃ p2 : PayloadParts, runResourcePhase os api_key rcs p = Except.ok p2 ∧
      dictHasKey p2.resources "meta"
        = (decide (os ≠ "windows") && rcs.any (fun rc => rc.pop_snapshots.truthy)) ∧
      countKey p2.resources "meta" ≤ 1 := by
  by_cases hos : os = "windows"
  · refine ⟨p, ?_, ?_, ?_⟩
    · unfold runResourcePhase
      rw [if_neg (fun h => h hos)]
      rfl
    · simp [hos, dictHasKey, dictGet?_none_of_countKey_zero _ _ hmeta]
    · simp [hmeta]
  · obtain ⟨p3, heq, hbase, hpres⟩ := runResourceList_spec rcs p false hok
    have hmp := hpres "meta" hkeys
    by_cases hany : rcs.any (fun rc => rc.pop_snapshots.truthy)
    · cases hg : dictGet? p.base "internalHostname" with
      | none =>
        rw [dictHasKey, hg] at hhost
        simp at hhost
      | some host =>
        refine ⟨{ p3 with resources := dictSet p3.resources "meta" (PyVal.dict [("api_key", PyVal.str api_key), ("host", host)]) }, ?_, ?_, ?_⟩
        · unfold runResourcePhase
          rw [if_pos hos, heq]
          simp only [bind_ok_exc, Bool.false_or, hany, if_true]
          unfold dictGetItemE
          rw [hbase, hg]
          rfl
        · simp [dictHasKey_set_self, hany, hos]
        · have h0 : countKey p3.resources "meta" = 0 := hmp.2.trans hmeta
          rw [countKey_set_of_zero _ _ _ h0]
    · have hany2 : rcs.any (fun rc => rc.pop_snapshots.truthy) = false := by simpa using hany
      refine ⟨p3, ?_, ?_, ?_⟩
      · unfold runResourcePhase
        rw [if_pos hos, heq]
        simp only [bind_ok_exc, hany2, Bool.false_or, Bool.false_eq_true, if_false]
        rfl
      · rw [dictHasKey, hmp.1, dictGet?_none_of_countKey_zero _ _ hmeta]
        simp [hany2]
      · rw [hmp.2, hmeta]
        omega

/-- The one registered resource check (`ResProcesses`, resource key
`processes`), here reporting one buffered snapshot. -/
def procResCheck : ResourceCheck :=
  { RESOURCE_KEY := "processes", check := Except.ok (),
    pop_snapshots := PyVal.list [PyVal.str "snap"], get_format_version := PyVal.int 1,
    describe_format_if_needed := PyVal.none }

/-- Payload parts whose base (as built by `_build_payload`) carries the
internal hostname. -/
def pHost : PayloadParts := ⟨[("internalHostname", PyVal.str "host1")], [], [], []⟩

/-- Witness for C8: on a Unix host with one resource check producing a
snapshot, the `meta` record is attached (exactly once). -/
theorem c8_resource_meta_witness :
    ∃ p2 : PayloadParts, runResourcePhase "linux" "apikey" [procResCheck] pHost = Except.ok p2 ∧
      dictHasKey p2.resources "meta"
        = (decide (("linux" : String) ≠ "windows")
            && [procResCheck].any (fun rc => rc.pop_snapshots.truthy)) ∧
      countKey p2.resources "meta" ≤ 1 :=
  c8_resource_meta "linux" "apikey" [procResCheck] pHost
    (fun rc hm => by rw [List.mem_singleton] at hm; subst hm; rfl)
    (fun rc hm => by rw [List.mem_singleton] at hm; subst hm; decide)
    rfl rfl

/-- Counterexample to C9 as stated: the `processes` system-probe category is
NOT skipped on a falsy result. In this concrete run the processes check
returns `None` (falsy), yet line 188 (`payload.update({'processes':
processes})`) runs unconditionally, so the final payload maps `processes` to
`None` — the field changes from absent to present instead of being left
unchanged. -/
theorem c9_counterexample :
    benignSys.processes = Except.ok PyVal.none ∧
    PyVal.none.truthy = false ∧
    Except.map (fun o => o.payload.map (fun d => dictGet? d "processes"))
      (Collector.run c0 0 (fun _ => true) benignInputs [])
      = Except.ok (some (some PyVal.none)) :=
  ⟨rfl, rfl, rfl⟩

theorem bind_error_exc {α β : Type} (e : Exc) (f : α → Except Exc β) :
    ((Except.error e : Except Exc α) >>= f) = Except.error e := rfl

/-- C9 amended: among the Unix system-probe categories, a falsy result is
skipped (leaving the payload unchanged) only for the disk, memory, io and cpu
categories, whose merges are guarded. The load result is merged
unconditionally: any mapping result — truthy or falsy — is folded into the
payload (`payload.update(load)`, line 164, has no guard), and a falsy
non-mapping load result such as `None` makes the run raise `TypeError`
instead of being skipped. The processes and networkTraffic results are stored
into the payload unconditionally — a falsy value is written under its key
rather than skipped. -/
theorem c9_amended_system_merge (p : PayloadParts) (vd vm vio vp vn vc : PyVal)
    (vl : List (String × PyVal))
    (hd : vd.truthy = false) (hm : vm.truthy = false) (hio : vio.truthy = false)
    (hc : vc.truthy = false) :
    runUnixSystemChecks ⟨Except.ok vd, Except.ok (PyVal.dict vl), Except.ok vm,
        Except.ok vio, Except.ok vp, Except.ok vn, Except.ok vc⟩ p
      = Except.ok { p with base := dictSet (dictSet (vl.foldl (fun acc kv => dictSet acc kv.1 kv.2) p.base) "processes" vp) "networkTraffic" vn } ∧
    runUnixSystemChecks ⟨Except.ok vd, Except.ok PyVal.none, Except.ok vm,
        Except.ok vio, Except.ok vp, Except.ok vn, Except.ok vc⟩ p
      = Except.error Exc.typeError := by
  constructor
  · unfold runUnixSystemChecks diskStep loadStep memoryStep ioStep processesStep networkStep
      cpuStep
    simp [bind_ok_exc, hd, hm, hio, hc, dictUpdate]
  · unfold runUnixSystemChecks diskStep loadStep
    simp [bind_ok_exc, bind_error_exc, hd, dictUpdate]

/-- Witness for the amended C9: with every check reporting a falsy value and
an empty-mapping load, only `processes` and `networkTraffic` end up written
(as `None`); with a `None` load the run raises `TypeError`. -/
theorem c9_amended_system_merge_witness :
    runUnixSystemChecks benignSys pEmpty
      = Except.ok { pEmpty with base := dictSet (dictSet pEmpty.base "processes" PyVal.none) "networkTraffic" PyVal.none } ∧
    runUnixSystemChecks { benignSys with load := Except.ok PyVal.none } pEmpty
      = Except.error Exc.typeError :=
  ⟨(c9_amended_system_merge pEmpty (PyVal.list []) PyVal.none PyVal.none PyVal.none PyVal.none
      PyVal.none [] rfl rfl rfl rfl).1,
   (c9_amended_system_merge pEmpty (PyVal.list []) PyVal.none PyVal.none PyVal.none PyVal.none
      PyVal.none [] rfl rfl rfl rfl).2⟩

/-- C10 (confirmed). For a truthy MongoDB result containing an `events` key
(lines 222-226): exactly the `Mongo` entry of the `events` sub-mapping is
read — if that entry is absent the run raises `KeyError('Mongo')` — it is
assigned into the payload's event mapping under `Mongo`, overwriting any prior
value there; every other entry of the `events` sub-mapping is discarded (the
event mapping is otherwise unchanged), and the remainder of the result,
stripped of `events`, is merged under `mongoDB`. -/
theorem c10_mongo_merge (p : PayloadParts) (kvs : List (String × PyVal)) (ev : PyVal)
    (hev : dictGet? kvs "events" = some ev) :
    (∀ (ekvs : List (String × PyVal)) (v : PyVal),
      ev = PyVal.dict ekvs → dictGet? ekvs "Mongo" = some v →
      mongoMerge (PyVal.dict kvs) p = Except.ok
        { p with events := dictSet p.events "Mongo" v,
                 base := dictSet p.base "mongoDB" (PyVal.dict (dictDel kvs "events")) } ∧
      dictGet? (dictSet p.events "Mongo" v) "Mongo" = some v ∧
      (∀ k2, k2 ≠ "Mongo" → dictGet? (dictSet p.events "Mongo" v) k2 = dictGet? p.events k2)) ∧
    (∀ ekvs : List (String × PyVal),
      ev = PyVal.dict ekvs → dictGet? ekvs "Mongo" = Option.none →
      mongoMerge (PyVal.dict kvs) p = Except.error (Exc.keyError "Mongo")) := by
  have htr : (PyVal.dict kvs).truthy = true := by
    cases kvs with
    | nil => simp [dictGet?] at hev
    | cons kv rest => simp [PyVal.truthy]
  have hhk : dictHasKey kvs "events" = true := by
    simp [dictHasKey, hev]
  constructor
  · intro ekvs v hevd hMongo
    subst hevd
    unfold mongoMerge
    simp only [htr, if_true, PyVal.hasKeyMethod, bind_ok_exc, hhk, PyVal.getItem,
      PyVal.delKeyMethod, dictGetItemE, hev, hMongo]
    exact ⟨rfl, dictGet?_set_self _ _ _, fun k2 hk2 => dictGet?_set_other _ _ _ _ hk2⟩
  · intro ekvs hevd hMongo
    subst hevd
    unfold mongoMerge
    simp only [htr, if_true, PyVal.hasKeyMethod, bind_ok_exc, hhk, PyVal.getItem,
      dictGetItemE, hev, hMongo]
    rfl

/-- A MongoDB result with a `Mongo` event entry, an extra event entry that
must be discarded, and a metric entry that must survive under `mongoDB`. -/
def mongoResult : List (String × PyVal) :=
  [("events", PyVal.dict [("Mongo", PyVal.list [PyVal.str "me"]),
      ("Other", PyVal.list [PyVal.str "oe"])]),
   ("metric", PyVal.int 5)]

/-- Payload parts with a prior value under the `Mongo` event key. -/
def pMongoPrior : PayloadParts := ⟨[], [], [("Mongo", PyVal.str "prior")], []⟩

/-- Witness for C10: the concrete merge overwrites the prior `Mongo` entry and
drops the `Other` entry; a result whose `events` sub-mapping lacks `Mongo`
raises `KeyError('Mongo')`. -/
theorem c10_mongo_merge_witness :
    mongoMerge (PyVal.dict mongoResult) pMongoPrior = Except.ok
      { pMongoPrior with
        events := dictSet pMongoPrior.events "Mongo" (PyVal.list [PyVal.str "me"]),
        base := dictSet pMongoPrior.base "mongoDB" (PyVal.dict (dictDel mongoResult "events")) } ∧
    mongoMerge (PyVal.dict [("events", PyVal.dict [("NotMongo", PyVal.int 1)])]) pMongoPrior
      = Except.error (Exc.keyError "Mongo") :=
  ⟨((c10_mongo_merge pMongoPrior mongoResult
      (PyVal.dict [("Mongo", PyVal.list [PyVal.str "me"]), ("Other", PyVal.list [PyVal.str "oe"])])
      rfl).1 _ (PyVal.list [PyVal.str "me"]) rfl rfl).1,
   (c10_mongo_merge pMongoPrior [("events", PyVal.dict [("NotMongo", PyVal.int 1)])]
      (PyVal.dict [("NotMongo", PyVal.int 1)]) rfl).2 _ rfl rfl⟩

/-- The effect of `k` completed checks.d iterations (the loop body of lines
287-313 applied in order, with the poll at line 285 reading true each time):
the payload parts, check statuses and call trace accumulated so far. Used to
state what a run stopped after `k` iterations has already done. -/
def processPrefix (checks : List PluginCheck) (p : PayloadParts)
    (statuses : List CheckStatus) (trace : List CallEvent) :
    PayloadParts × List CheckStatus × List CallEvent :=
  match checks with
  | [] => (p, statuses, trace)
  | check :: rest =>
    let out := processPluginCheck check p
    processPrefix rest out.p (statuses ++ [out.status]) (trace ++ out.trace)

theorem runChecksD_stopped_after (flag : Nat → Bool) (start : Nat) (checks : List PluginCheck)
    (p : PayloadParts) (statuses : List CheckStatus) (trace : List CallEvent) (k : Nat)
    (hk : k < checks.length)
    (htrue : ∀ i, i < k → flag (start + i) = true)
    (hstop : flag (start + k) = false) :
    runChecksD flag start checks p statuses trace =
      ⟨(processPrefix (checks.take k) p statuses trace).1,
       (processPrefix (checks.take k) p statuses trace).2.1,
       (processPrefix (checks.take k) p statuses trace).2.2,
       start + k + 1, true⟩ := by
  induction checks generalizing start p statuses trace k with
  | nil => simp at hk
  | cons check rest ih =>
    cases k with
    | zero =>
      simp only [Nat.add_zero] at hstop
      simp [runChecksD, hstop, processPrefix]
    | succ j =>
      have hf : flag start = true := by simpa using htrue 0 (Nat.succ_pos j)
      have hk2 : j < rest.length := by simpa using hk
      have htrue2 : ∀ i, i < j → flag (start + 1 + i) = true := by
        intro i hi
        rw [show start + 1 + i = start + (i + 1) by omega]
        exact htrue (i + 1) (by omega)
      have hstop2 : flag (start + 1 + j) = false := by
        rw [show start + 1 + j = start + (j + 1) by omega]
        exact hstop
      simp only [runChecksD, hf, Bool.not_true, Bool.false_eq_true, if_false,
        List.take_succ_cons, processPrefix]
      rw [ih (start + 1) _ _ _ j hk2 htrue2 hstop2]
      rw [show start + 1 + j + 1 = start + (j + 1) + 1 by omega]

/-- C5 (confirmed). A stop observed between checks.d iterations — the poll at
line 285 reads false before iteration `k`, after `k` earlier iterations
completed — makes `Collector.run` return at line 286 immediately: no emitter
is invoked, no `CollectorStatus` is persisted, and no payload is handed off;
only the first `k` plugin checks were processed. The `k = 0` instance is a
stop called before any plugin-check iteration begins. -/
theorem c5_stop_skips_emit_and_persist (c : Collector) (now : Int) (flag : Nat → Bool)
    (inp : RunInputs) (checksd : List PluginCheck) (k : Nat)
    (c2 : Collector) (p1 : PayloadParts)
    (hphases : runPhases c now inp = Except.ok (c2, p1))
    (hk : k < checksd.length)
    (htrue : ∀ i, i < k → flag i = true)
    (hstop : flag k = false) :
    Collector.run c now flag inp checksd =
      Except.ok ⟨c2, true, Option.none,
        (processPrefix (checksd.take k) p1 [] []).2.1, [], [],
        (processPrefix (checksd.take k) p1 [] []).2.2, Option.none⟩ := by
  unfold Collector.run
  rw [hphases]
  simp only [bind_ok_exc]
  rw [runChecksD_stopped_after flag 0 checksd p1 [] [] k hk
    (fun i hi => by rw [Nat.zero_add]; exact htrue i hi)
    (by rw [Nat.zero_add]; exact hstop)]
  rfl

/-- Witness for C5: a benign run with two plugin checks where the stop lands
at the second poll — the first check is processed, then the run returns early
with nothing emitted or persisted. -/
theorem c5_stop_skips_emit_and_persist_witness :
    Collector.run c0 0 (fun i => decide (i = 0)) benignInputs [goodCheck, badCheck] =
      Except.ok ⟨(phasesOutD (runPhases c0 0 benignInputs)).1, true, Option.none,
        (processPrefix ([goodCheck, badCheck].take 1) (phasesOutD (runPhases c0 0 benignInputs)).2 [] []).2.1, [], [],
        (processPrefix ([goodCheck, badCheck].take 1) (phasesOutD (runPhases c0 0 benignInputs)).2 [] []).2.2, Option.none⟩ :=
  c5_stop_skips_emit_and_persist c0 0 (fun i => decide (i = 0)) benignInputs
    [goodCheck, badCheck] 1
    (phasesOutD (runPhases c0 0 benignInputs)).1 (phasesOutD (runPhases c0 0 benignInputs)).2
    rfl (by decide) (fun i hi => by rw [Nat.lt_one_iff.mp hi]; rfl) rfl
